import Mathlib

/-!
Shallow embedding of the NPK fertilizer mix solver core
(src/src/services/solver.ts and src/src/types/index.ts).

Numbers are modelled by the rationals; the glpk.js solver is modelled as
an oracle passed to calculateMix, and a thrown JS exception is modelled
by the Except.error constructor carrying the exception message.
-/

namespace NpkSolver

/-- Fertilizer record, from src/src/types/index.ts. -/
structure Fertilizer where
  id : String
  name : String
  n : ℚ
  p : ℚ
  k : ℚ
deriving DecidableEq

/-- RecipeIngredient record, from src/src/types/index.ts. -/
structure RecipeIngredient where
  fertilizer : Fertilizer
  amount : ℚ
deriving DecidableEq

/-- The actualNPK component of a CalculationResult. -/
structure NPK where
  n : ℚ
  p : ℚ
  k : ℚ
deriving DecidableEq

/-- CalculationResult, from solver.ts: every field is optional in TS. -/
structure CalculationResult where
  recipe : Option (List RecipeIngredient)
  error : Option String
  actualNPK : Option NPK
  actualWeight : Option ℚ
deriving DecidableEq

/-- CalculateMixParams, from solver.ts. -/
structure CalculateMixParams where
  targetN : ℚ
  targetP : ℚ
  targetK : ℚ
  totalWeight : ℚ
  tolerance : ℚ
  increment : ℚ
  availableFertilizers : List Fertilizer
deriving DecidableEq

/- glpk.js numeric constants. -/

def GLP_MIN : Nat := 1

/-- glpk.js bound kind: free variable. -/
def GLP_FR : Nat := 1

/-- glpk.js bound kind: lower bound only. -/
def GLP_LO : Nat := 2

/-- glpk.js bound kind: upper bound only. -/
def GLP_UP : Nat := 3

/-- glpk.js bound kind: double bounded. -/
def GLP_DB : Nat := 4

/-- glpk.js bound kind: fixed. -/
def GLP_FX : Nat := 5

/-- glpk.js solution status: undefined. -/
def GLP_UNDEF : Nat := 1

/-- glpk.js solution status: feasible. -/
def GLP_FEAS : Nat := 2

/-- glpk.js solution status: infeasible. -/
def GLP_INFEAS : Nat := 3

/-- glpk.js solution status: no feasible solution. -/
def GLP_NOFEAS : Nat := 4

/-- glpk.js solution status: optimal. -/
def GLP_OPT : Nat := 5

/-- glpk.js solution status: unbounded. -/
def GLP_UNBND : Nat := 6

/-- A weighted variable occurrence, `{ name, coef }` in the TS model. -/
structure LPTerm where
  name : String
  coef : ℚ
deriving DecidableEq

/-- A `bnds` record, `{ type, lb, ub }` in the TS model. -/
structure LPBnds where
  type : Nat
  lb : ℚ
  ub : ℚ
deriving DecidableEq

/-- One entry of `lp.subjectTo`. -/
structure LPConstraint where
  name : String
  vars : List LPTerm
  bnds : LPBnds
deriving DecidableEq

/-- One entry of `lp.bounds` (variable bounds). -/
structure LPBound where
  name : String
  type : Nat
  lb : ℚ
  ub : ℚ
deriving DecidableEq

/-- The `lp.objective` record. -/
structure LPObjective where
  direction : Nat
  name : String
  vars : List LPTerm
deriving DecidableEq

/-- The full `lp` model handed to glpk.solve. -/
structure LPModel where
  name : String
  objective : LPObjective
  subjectTo : List LPConstraint
  bounds : List LPBound
  binaries : List String
  generals : List String
deriving DecidableEq

/-- `const epsilon = 0.001` (solver.ts line 53). -/
def epsilon : ℚ := 0.001

/-- Continuous amount variable name for the fertilizer at `index`. -/
def xName (index : Nat) : String := "x" ++ toString index

/-- Integer increment-count variable name for the fertilizer at `index`. -/
def zName (index : Nat) : String := "z" ++ toString index

/-- Binary usage variable name for the fertilizer at `index`. -/
def yName (index : Nat) : String := "y" ++ toString index

/-- The zero-target pre-filter (solver.ts lines 37-42). -/
def filterFertilizers (targetN targetP targetK : ℚ) (fs : List Fertilizer) :
    List Fertilizer :=
  fs.filter fun fertilizer =>
    if targetN = 0 ∧ fertilizer.n > 0 then false
    else if targetP = 0 ∧ fertilizer.p > 0 then false
    else if targetK = 0 ∧ fertilizer.k > 0 then false
    else true

/-- C1 in the source comments: `x_f - increment * z_f = 0` (lines 95-99). -/
def incrementConstraint (increment : ℚ) (index : Nat) : LPConstraint :=
  ⟨"c_increment_" ++ toString index,
   [⟨xName index, 1⟩, ⟨zName index, -increment⟩],
   ⟨GLP_FX, 0, 0⟩⟩

/-- Big-M upper bound: `x_f - M * y_f <= 0` (lines 103-107). -/
def bigMUpperConstraint (M : ℚ) (index : Nat) : LPConstraint :=
  ⟨"c_bigM_upper_" ++ toString index,
   [⟨xName index, 1⟩, ⟨yName index, -M⟩],
   ⟨GLP_UP, 0, 0⟩⟩

/-- Epsilon lower bound: `x_f - epsilon * y_f >= 0` (lines 111-115). -/
def bigMLowerConstraint (index : Nat) : LPConstraint :=
  ⟨"c_bigM_lower_" ++ toString index,
   [⟨xName index, 1⟩, ⟨yName index, -epsilon⟩],
   ⟨GLP_LO, 0, 0⟩⟩

/-- Per-fertilizer variable bounds (lines 87-89). -/
def variableBounds (totalWeight increment : ℚ) (index : Nat) : List LPBound :=
  [⟨xName index, GLP_DB, 0, totalWeight⟩,
   ⟨zName index, GLP_DB, 0, ((Int.floor (totalWeight / increment) : ℤ) : ℚ)⟩,
   ⟨yName index, GLP_DB, 0, 1⟩]

/-- The total-weight equality constraint (lines 121-125). -/
def totalWeightConstraint (totalWeight : ℚ) (fs : List Fertilizer) : LPConstraint :=
  ⟨"c_total_weight",
   fs.enum.map fun q => ⟨xName q.1, 1⟩,
   ⟨GLP_FX, totalWeight, totalWeight⟩⟩

/-- `!(targetN === 0 && availableFertilizers.every(f => f.n === 0))` (line 133). -/
def isNitrogenConstraintNecessary (targetN : ℚ) (fs : List Fertilizer) : Bool :=
  !(decide (targetN = 0) && fs.all fun f => decide (f.n = 0))

/-- `!(targetP === 0 && availableFertilizers.every(f => f.p === 0))` (line 144). -/
def isPhosphorusConstraintNecessary (targetP : ℚ) (fs : List Fertilizer) : Bool :=
  !(decide (targetP = 0) && fs.all fun f => decide (f.p = 0))

/-- `!(targetK === 0 && availableFertilizers.every(f => f.k === 0))` (line 155). -/
def isPotassiumConstraintNecessary (targetK : ℚ) (fs : List Fertilizer) : Bool :=
  !(decide (targetK = 0) && fs.all fun f => decide (f.k = 0))

/-- N tolerance constraint (lines 136-140). -/
def nToleranceConstraint (totalWeight toleranceMultiplier targetN : ℚ)
    (fs : List Fertilizer) : LPConstraint :=
  ⟨"c_N_tolerance",
   fs.enum.map fun q => ⟨xName q.1, q.2.n / 100⟩,
   ⟨GLP_DB, totalWeight * (targetN / 100) * (1 - toleranceMultiplier),
    totalWeight * (targetN / 100) * (1 + toleranceMultiplier)⟩⟩

/-- P tolerance constraint (lines 147-151). -/
def pToleranceConstraint (totalWeight toleranceMultiplier targetP : ℚ)
    (fs : List Fertilizer) : LPConstraint :=
  ⟨"c_P_tolerance",
   fs.enum.map fun q => ⟨xName q.1, q.2.p / 100⟩,
   ⟨GLP_DB, totalWeight * (targetP / 100) * (1 - toleranceMultiplier),
    totalWeight * (targetP / 100) * (1 + toleranceMultiplier)⟩⟩

/-- K tolerance constraint (lines 158-162). -/
def kToleranceConstraint (totalWeight toleranceMultiplier targetK : ℚ)
    (fs : List Fertilizer) : LPConstraint :=
  ⟨"c_K_tolerance",
   fs.enum.map fun q => ⟨xName q.1, q.2.k / 100⟩,
   ⟨GLP_DB, totalWeight * (targetK / 100) * (1 - toleranceMultiplier),
    totalWeight * (targetK / 100) * (1 + toleranceMultiplier)⟩⟩

/-- Construction of the `lp` object (lines 55-163), applied to the already
filtered fertilizer list. Constraints appear in push order: the three
per-fertilizer constraints for index 0, 1, ..., then the total-weight
constraint, then the conditionally emitted N, P, K tolerance constraints. -/
def buildModel (targetN targetP targetK totalWeight tolerance increment : ℚ)
    (fs : List Fertilizer) : LPModel :=
  ⟨"Fertilizer-Mix",
   ⟨GLP_MIN, "count", fs.enum.map fun q => ⟨yName q.1, 1⟩⟩,
   (fs.enum.flatMap fun q =>
      [incrementConstraint increment q.1,
       bigMUpperConstraint (totalWeight * 2) q.1,
       bigMLowerConstraint q.1])
     ++ [totalWeightConstraint totalWeight fs]
     ++ (if isNitrogenConstraintNecessary targetN fs then
          [nToleranceConstraint totalWeight (tolerance / 100) targetN fs] else [])
     ++ (if isPhosphorusConstraintNecessary targetP fs then
          [pToleranceConstraint totalWeight (tolerance / 100) targetP fs] else [])
     ++ (if isPotassiumConstraintNecessary targetK fs then
          [kToleranceConstraint totalWeight (tolerance / 100) targetK fs] else []),
   fs.enum.flatMap fun q => variableBounds totalWeight increment q.1,
   fs.enum.map fun q => yName q.1,
   fs.enum.map fun q => zName q.1⟩

/-- The solver's answer for optimal/feasible outcomes: a status code plus a
partial map from variable name to value (`result.result.vars`). -/
structure SolveResult where
  status : Nat
  vars : String → Option ℚ

/-- The error message selected for non-optimal, non-feasible statuses
(lines 196-206). The initial default is overwritten on every path. -/
def statusErrorMessage (status : Nat) : String :=
  if status = GLP_NOFEAS then
    "No feasible solution could be found for the given parameters. Try adjusting NPK targets, tolerance, or available fertilizers."
  else if status = GLP_UNBND then
    "The problem is unbounded (variables can increase indefinitely without violating constraints)."
  else if status = GLP_UNDEF then
    "The problem is undefined (e.g., due to contradictory constraints or numerical instability)."
  else
    "Solver finished with status: " ++ toString status

/-- The forEach of lines 172-181: collect `{ fertilizer, amount }` for each
index whose amount variable is present and exceeds epsilon. The JS guard is
`x_val && x_val > epsilon`; since epsilon > 0, the truthiness test
`x_val &&` only discards values (0, undefined) that already fail
`x_val > epsilon`. -/
def includedEntries (fs : List Fertilizer) (vars : String → Option ℚ) :
    List RecipeIngredient :=
  fs.enum.filterMap fun q =>
    match vars (xName q.1) with
    | some v => if epsilon < v then some ⟨q.2, v⟩ else none
    | none => none

/-- `actualN`: sum of `x_val * f.n / 100` over included entries (line 176). -/
def recipeTotalN (recipe : List RecipeIngredient) : ℚ :=
  (recipe.map fun e => e.amount * e.fertilizer.n / 100).sum

/-- `actualP`: sum of `x_val * f.p / 100` over included entries (line 177). -/
def recipeTotalP (recipe : List RecipeIngredient) : ℚ :=
  (recipe.map fun e => e.amount * e.fertilizer.p / 100).sum

/-- `actualK`: sum of `x_val * f.k / 100` over included entries (line 178). -/
def recipeTotalK (recipe : List RecipeIngredient) : ℚ :=
  (recipe.map fun e => e.amount * e.fertilizer.k / 100).sum

/-- `actualWeight`: sum of included amounts (line 179). -/
def recipeWeight (recipe : List RecipeIngredient) : ℚ :=
  (recipe.map fun e => e.amount).sum

/-- `(total / weight) * 100 || 0` (lines 184-186). In the interpreter the
accumulated totals vanish whenever the accumulated weight does (every
included amount exceeds epsilon > 0), so the only degenerate case reached
is 0/0, where JS produces NaN and `|| 0` turns it into 0. -/
def finalPct (total weight : ℚ) : ℚ :=
  if weight = 0 then 0 else total / weight * 100

/-- The success result built at lines 169-195: the recipe of included
entries (re-filtered by amount > epsilon at line 189, a no-op), the final
NPK percentages, and the actual weight. -/
def successResult (fs : List Fertilizer) (vars : String → Option ℚ) :
    CalculationResult :=
  ⟨some ((includedEntries fs vars).filter fun item => decide (epsilon < item.amount)),
   none,
   some ⟨finalPct (recipeTotalN (includedEntries fs vars))
           (recipeWeight (includedEntries fs vars)),
         finalPct (recipeTotalP (includedEntries fs vars))
           (recipeWeight (includedEntries fs vars)),
         finalPct (recipeTotalK (includedEntries fs vars))
           (recipeWeight (includedEntries fs vars))⟩,
   some (recipeWeight (includedEntries fs vars))⟩

/-- Interpretation of a returned solution (lines 168-207). -/
def interpretSolution (fs : List Fertilizer) (sr : SolveResult) : CalculationResult :=
  if sr.status = GLP_OPT ∨ sr.status = GLP_FEAS then
    successResult fs sr.vars
  else
    ⟨none, some (statusErrorMessage sr.status), none, none⟩

/-- The filtered candidate list computed at lines 37-42. -/
def filteredCandidates (params : CalculateMixParams) : List Fertilizer :=
  filterFertilizers params.targetN params.targetP params.targetK
    params.availableFertilizers

/-- The LP model calculateMix hands to the solver. -/
def builtModel (params : CalculateMixParams) : LPModel :=
  buildModel params.targetN params.targetP params.targetK params.totalWeight
    params.tolerance params.increment (filteredCandidates params)

/-- calculateMix (lines 26-213). The `glpkLoad` argument models the outcome
of `await GLPK()` at line 51 (outside the try/catch); `solve` models
`glpk.solve` (inside the try/catch). An `Except.error` overall return value
models a rejection of the promise returned by calculateMix, i.e. an
exception escaping the function. -/
def calculateMix (params : CalculateMixParams) (glpkLoad : Except String Unit)
    (solve : LPModel → Except String SolveResult) :
    Except String CalculationResult :=
  if (filteredCandidates params).length = 0 then
    Except.ok ⟨none, some "No fertilizers selected for mixing.", none, none⟩
  else if params.totalWeight ≤ 0 ∨ params.increment ≤ 0 then
    Except.ok ⟨none, some "Total weight and increment must be positive.", none, none⟩
  else
    match glpkLoad with
    | Except.error m => Except.error m
    | Except.ok _ =>
      match solve (builtModel params) with
      | Except.error m =>
        Except.ok
          ⟨none,
           some ("An unexpected error occurred during calculation: " ++ m),
           none, none⟩
      | Except.ok sr => Except.ok (interpretSolution (filteredCandidates params) sr)

/-- The linear value of a constraint under an assignment of the variables. -/
def constraintValue (assign : String → ℚ) (c : LPConstraint) : ℚ :=
  (c.vars.map fun t => t.coef * assign t.name).sum

/-- Satisfaction of one glpk constraint under an assignment, following the
glpk bound-kind semantics. -/
def satisfiesConstraint (assign : String → ℚ) (c : LPConstraint) : Prop :=
  if c.bnds.type = GLP_FR then True
  else if c.bnds.type = GLP_LO then c.bnds.lb ≤ constraintValue assign c
  else if c.bnds.type = GLP_UP then constraintValue assign c ≤ c.bnds.ub
  else if c.bnds.type = GLP_DB then
    c.bnds.lb ≤ constraintValue assign c ∧ constraintValue assign c ≤ c.bnds.ub
  else constraintValue assign c = c.bnds.lb

instance (assign : String → ℚ) (c : LPConstraint) :
    Decidable (satisfiesConstraint assign c) := by
  unfold satisfiesConstraint
  infer_instance

/- Concrete fixtures used by counterexamples and witnesses. -/

/-- Assignment with amount 1 and every other variable 0. -/
def lowerCexAssign : String → ℚ := fun s => if s = "x0" then 1 else 0

/-- Assignment with amount 5 at index 1 and every other variable 1. -/
def linkWitnessAssign : String → ℚ := fun s => if s = "x1" then 5 else 1

/-- Urea, from the default fertilizer library. -/
def urea : Fertilizer := ⟨"4d0f7f41", "Urea", 46, 0, 0⟩

/-- Blood Meal, from the default fertilizer library. -/
def bloodMeal : Fertilizer := ⟨"4d0f7f3a", "Blood Meal", 12, 0, 0⟩

/-- A fertilizer with a negative nitrogen percentage, outside the
nonnegativity convention the types do not enforce. -/
def weirdFert : Fertilizer := ⟨"w1", "Weird", -1, 0, 0⟩

/-- A fertilizer with all percentages zero. -/
def plainFert : Fertilizer := ⟨"a1", "Plain", 0, 0, 0⟩

/-- A request that passes validation. -/
def validParams : CalculateMixParams := ⟨10, 10, 10, 1000, 5, 10, [urea]⟩

/-- A request with zero total weight but a nonempty candidate list. -/
def weightZeroParams : CalculateMixParams := ⟨10, 10, 10, 0, 5, 1, [urea]⟩

/-- A request with zero total weight and an empty candidate list. -/
def emptyListParams : CalculateMixParams := ⟨10, 10, 10, 0, 5, 1, []⟩

/-- A valid request with a single candidate. -/
def demoParams : CalculateMixParams := ⟨10, 0, 0, 100, 5, 10, [bloodMeal]⟩

/-- A solver oracle reporting an optimal solution with every amount 50. -/
def demoSolve : LPModel → Except String SolveResult :=
  fun _ => Except.ok ⟨GLP_OPT, fun _ => some 50⟩

/-- A solver oracle reporting a feasible solution with all values 0. -/
def demoZeroSolve : LPModel → Except String SolveResult :=
  fun _ => Except.ok ⟨GLP_FEAS, fun _ => some 0⟩

/- Theorems. -/

/-- String append acts as append on the underlying character lists. -/
theorem string_append_data (s t : String) : (s ++ t).data = s.data ++ t.data := by
  cases s
  cases t
  rfl

/-- The epsilon constant as a plain fraction. -/
theorem epsilon_val : epsilon = 1 / 1000 := by
  unfold epsilon
  norm_num

/-- **C1 counterexample**: the assignment amount = 1, used = 0 satisfies the
Usage-lower constraint amount − ε × used ≥ 0 on its own, the amount exceeds
ε, and used is a 0/1 value, yet used ≠ 1: the single constraint does not
force used = 1 when the amount exceeds ε. -/
theorem usage_lower_not_forcing_cex :
    satisfiesConstraint lowerCexAssign (bigMLowerConstraint 0) ∧
    (lowerCexAssign (yName 0) = 0 ∨ lowerCexAssign (yName 0) = 1) ∧
    epsilon < lowerCexAssign (xName 0) ∧
    ¬ lowerCexAssign (yName 0) = 1 := by
  have hx : lowerCexAssign (xName 0) = 1 := by decide
  have hy : lowerCexAssign (yName 0) = 0 := by decide
  refine ⟨?_, Or.inl hy, ?_, ?_⟩
  · unfold satisfiesConstraint
    simp only [bigMLowerConstraint, GLP_FR, GLP_LO]
    norm_num [constraintValue, hx, hy]
  · rw [hx, epsilon_val]
    norm_num
  · rw [hy]
    norm_num

/-- **C1 (amended)**: for a 0/1 value of used_i, the Usage-lower constraint
amount_i − ε × used_i ≥ 0 forces amount_i ≥ ε whenever used_i = 1; the
converse direction — used_i = 1 whenever amount_i is positive (in
particular whenever it exceeds ε) — is forced by the Usage-upper Big-M
constraint amount_i − M × used_i ≤ 0 with M = 2 × totalWeight, not by the
Usage-lower constraint. -/
theorem usage_linking_directions (assign : String → ℚ) (index : Nat)
    (totalWeight : ℚ)
    (hy : assign (yName index) = 0 ∨ assign (yName index) = 1) :
    (satisfiesConstraint assign (bigMLowerConstraint index) →
      assign (yName index) = 1 → epsilon ≤ assign (xName index)) ∧
    (satisfiesConstraint assign (bigMUpperConstraint (totalWeight * 2) index) →
      0 < assign (xName index) → assign (yName index) = 1) := by
  constructor
  · intro hs h1
    unfold satisfiesConstraint constraintValue bigMLowerConstraint at hs
    simp [GLP_FR, GLP_LO, epsilon_val, h1] at hs
    rw [epsilon_val]
    linarith
  · intro hs hx
    unfold satisfiesConstraint constraintValue bigMUpperConstraint at hs
    simp [GLP_FR, GLP_LO, GLP_UP] at hs
    rcases hy with h0 | h1
    · rw [h0] at hs
      simp at hs
      linarith
    · exact h1

/-- Witness for the amended C1 theorem at a concrete assignment. -/
theorem usage_linking_directions_witness :
    (satisfiesConstraint linkWitnessAssign (bigMLowerConstraint 1) →
      linkWitnessAssign (yName 1) = 1 → epsilon ≤ linkWitnessAssign (xName 1)) ∧
    (satisfiesConstraint linkWitnessAssign (bigMUpperConstraint ((10 : ℚ) * 2) 1) →
      0 < linkWitnessAssign (xName 1) → linkWitnessAssign (yName 1) = 1) :=
  usage_linking_directions linkWitnessAssign 1 10 (Or.inr (by decide))

/-- **C2 counterexample**: when the solver-module instantiation
`await GLPK()` (line 51) rejects, the exception escapes calculateMix: the
call sits outside the try/catch of lines 165-212, so the returned promise
rejects instead of resolving to a CalculationResult. -/
theorem glpk_load_throw_escapes_cex :
    calculateMix validParams (Except.error "wasm load failed")
        (fun _ => Except.ok ⟨GLP_OPT, fun _ => some 0⟩) =
      Except.error "wasm load failed" := rfl

/-- **C2 (amended)**: provided the solver-module instantiation
`await GLPK()` succeeds, calculateMix never lets an exception escape: it
returns a CalculationResult for every request and every solver behaviour,
and a throw during the solve call is mapped to an error result whose
message includes the underlying cause. A rejection of the module
instantiation itself escapes (see the counterexample). -/
theorem calculateMix_no_escape_after_load (params : CalculateMixParams)
    (solve : LPModel → Except String SolveResult) :
    (∃ r, calculateMix params (Except.ok ()) solve = Except.ok r) ∧
    (∀ m : String, (filteredCandidates params).length ≠ 0 →
      ¬(params.totalWeight ≤ 0 ∨ params.increment ≤ 0) →
      calculateMix params (Except.ok ()) (fun _ => Except.error m) =
        Except.ok ⟨none,
          some ("An unexpected error occurred during calculation: " ++ m),
          none, none⟩) := by
  constructor
  · unfold calculateMix
    split_ifs
    · exact ⟨_, rfl⟩
    · exact ⟨_, rfl⟩
    · cases hsv : solve (builtModel params) with
      | error m => exact ⟨_, rfl⟩
      | ok sr => exact ⟨_, rfl⟩
  · intro m h1 h2
    unfold calculateMix
    rw [if_neg h1, if_neg h2]

/-- Witness for the amended C2 theorem: a concrete solver throw is returned
as an error result carrying the cause. -/
theorem calculateMix_no_escape_after_load_witness :
    calculateMix validParams (Except.ok ()) (fun _ => Except.error "boom") =
      Except.ok ⟨none,
        some ("An unexpected error occurred during calculation: " ++ "boom"),
        none, none⟩ :=
  (calculateMix_no_escape_after_load validParams
    (fun _ => Except.error "boom")).2 "boom" (by decide) (by decide)

/-- **C3 counterexample**: with totalWeight = 0 and an empty candidate list,
calculateMix returns the NoCandidates failure, not the InvalidParameters
failure: the empty-candidates check at line 44 runs before the
positivity check at line 47. -/
theorem invalid_params_not_first_cex :
    calculateMix emptyListParams (Except.ok ())
        (fun _ => Except.ok ⟨GLP_UNDEF, fun _ => none⟩) =
      Except.ok ⟨none, some "No fertilizers selected for mixing.", none, none⟩ ∧
    "No fertilizers selected for mixing." ≠
      "Total weight and increment must be positive." := by
  constructor
  · rfl
  · decide

/-- **C3 (amended)**: for every request whose filtered candidate list is
non-empty, totalWeight ≤ 0 or increment ≤ 0 makes calculateMix return the
InvalidParameters failure, for every loader and solver behaviour (so no
model is built and the solver is never consulted). When the filtered list
is empty, the NoCandidates failure takes precedence. -/
theorem invalid_params_short_circuit (params : CalculateMixParams)
    (glpkLoad : Except String Unit)
    (solve : LPModel → Except String SolveResult)
    (hne : (filteredCandidates params).length ≠ 0)
    (hbad : params.totalWeight ≤ 0 ∨ params.increment ≤ 0) :
    calculateMix params glpkLoad solve =
      Except.ok ⟨none, some "Total weight and increment must be positive.",
        none, none⟩ := by
  unfold calculateMix
  rw [if_neg hne, if_pos hbad]

/-- Witness for the amended C3 theorem at a concrete request. -/
theorem invalid_params_short_circuit_witness :
    calculateMix weightZeroParams (Except.ok ())
        (fun _ => Except.ok ⟨GLP_UNDEF, fun _ => none⟩) =
      Except.ok ⟨none, some "Total weight and increment must be positive.",
        none, none⟩ :=
  invalid_params_short_circuit weightZeroParams (Except.ok ())
    (fun _ => Except.ok ⟨GLP_UNDEF, fun _ => none⟩) (by decide) (by decide)

/-- **C4 counterexample**: with all three targets zero, a fertilizer whose
nitrogen percentage is negative (hence nonzero) survives the pre-filter,
because the code tests pct > 0 rather than pct ≠ 0; the claimed
characterization would exclude it. -/
theorem zero_target_filter_cex :
    filterFertilizers 0 0 0 [weirdFert] = [weirdFert] ∧ weirdFert.n ≠ 0 := by
  constructor
  · rfl
  · decide

/-- **C4 (amended)**: the pre-filter returns exactly the subset of
ingredients such that, for each nutrient whose target is exactly zero, that
ingredient's percentage for that nutrient is not positive (for ingredients
following the nonnegative-percentage convention this coincides with the
percentage being zero); every other ingredient is kept. -/
theorem zero_target_filter_mem (targetN targetP targetK : ℚ)
    (fs : List Fertilizer) (f : Fertilizer) :
    f ∈ filterFertilizers targetN targetP targetK fs ↔
      f ∈ fs ∧ (targetN = 0 → f.n ≤ 0) ∧ (targetP = 0 → f.p ≤ 0) ∧
        (targetK = 0 → f.k ≤ 0) := by
  unfold filterFertilizers
  rw [List.mem_filter]
  constructor
  · rintro ⟨hmem, hpred⟩
    refine ⟨hmem, ?_, ?_, ?_⟩
    all_goals
      intro h0
      by_contra hpos
      push_neg at hpos
      split_ifs at hpred
      simp_all
  · rintro ⟨hmem, hn, hp, hk⟩
    refine ⟨hmem, ?_⟩
    split_ifs with h1 h2 h3
    · exact absurd (hn h1.1) (not_le.mpr h1.2)
    · exact absurd (hp h2.1) (not_le.mpr h2.2)
    · exact absurd (hk h3.1) (not_le.mpr h3.2)
    · rfl

/-- Witness for the amended C4 theorem at a concrete fertilizer list. -/
theorem zero_target_filter_mem_witness :
    plainFert ∈ filterFertilizers 0 0 0 [plainFert] :=
  (zero_target_filter_mem 0 0 0 [plainFert] plainFert).mpr
    ⟨by decide, fun _ => by decide, fun _ => by decide, fun _ => by decide⟩

/-- No increment-constraint name is a tolerance-constraint name. -/
theorem increment_name_ne (s : String) :
    ("c_increment_" ++ s) ≠ "c_N_tolerance" ∧
    ("c_increment_" ++ s) ≠ "c_P_tolerance" ∧
    ("c_increment_" ++ s) ≠ "c_K_tolerance" := by
  refine ⟨?_, ?_, ?_⟩
  all_goals
    intro h
    have h2 := congrArg String.data h
    rw [string_append_data] at h2
    simp at h2

/-- No Big-M-upper constraint name is a tolerance-constraint name. -/
theorem upper_name_ne (s : String) :
    ("c_bigM_upper_" ++ s) ≠ "c_N_tolerance" ∧
    ("c_bigM_upper_" ++ s) ≠ "c_P_tolerance" ∧
    ("c_bigM_upper_" ++ s) ≠ "c_K_tolerance" := by
  refine ⟨?_, ?_, ?_⟩
  all_goals
    intro h
    have h2 := congrArg String.data h
    rw [string_append_data] at h2
    simp at h2

/-- No Big-M-lower constraint name is a tolerance-constraint name. -/
theorem lower_name_ne (s : String) :
    ("c_bigM_lower_" ++ s) ≠ "c_N_tolerance" ∧
    ("c_bigM_lower_" ++ s) ≠ "c_P_tolerance" ∧
    ("c_bigM_lower_" ++ s) ≠ "c_K_tolerance" := by
  refine ⟨?_, ?_, ?_⟩
  all_goals
    intro h
    have h2 := congrArg String.data h
    rw [string_append_data] at h2
    simp at h2

/-- The nitrogen gating boolean of line 133, as a proposition. -/
theorem isNitrogen_necessary_iff (targetN : ℚ) (fs : List Fertilizer) :
    isNitrogenConstraintNecessary targetN fs = true ↔
      targetN ≠ 0 ∨ ∃ f ∈ fs, f.n ≠ 0 := by
  unfold isNitrogenConstraintNecessary
  simp [List.all_eq_true]

/-- The phosphorus gating boolean of line 144, as a proposition. -/
theorem isPhosphorus_necessary_iff (targetP : ℚ) (fs : List Fertilizer) :
    isPhosphorusConstraintNecessary targetP fs = true ↔
      targetP ≠ 0 ∨ ∃ f ∈ fs, f.p ≠ 0 := by
  unfold isPhosphorusConstraintNecessary
  simp [List.all_eq_true]

/-- The potassium gating boolean of line 155, as a proposition. -/
theorem isPotassium_necessary_iff (targetK : ℚ) (fs : List Fertilizer) :
    isPotassiumConstraintNecessary targetK fs = true ↔
      targetK ≠ 0 ∨ ∃ f ∈ fs, f.k ≠ 0 := by
  unfold isPotassiumConstraintNecessary
  simp [List.all_eq_true]

/-- Every constraint of the generated model is one of: a per-fertilizer
constraint, the total-weight constraint, or a gated tolerance constraint. -/
theorem subjectTo_mem_cases {targetN targetP targetK totalWeight tolerance increment : ℚ}
    {fs : List Fertilizer} {c : LPConstraint}
    (hc : c ∈ (buildModel targetN targetP targetK totalWeight tolerance
      increment fs).subjectTo) :
    (∃ i, c = incrementConstraint increment i ∨
          c = bigMUpperConstraint (totalWeight * 2) i ∨
          c = bigMLowerConstraint i) ∨
    c = totalWeightConstraint totalWeight fs ∨
    (isNitrogenConstraintNecessary targetN fs = true ∧
      c = nToleranceConstraint totalWeight (tolerance / 100) targetN fs) ∨
    (isPhosphorusConstraintNecessary targetP fs = true ∧
      c = pToleranceConstraint totalWeight (tolerance / 100) targetP fs) ∨
    (isPotassiumConstraintNecessary targetK fs = true ∧
      c = kToleranceConstraint totalWeight (tolerance / 100) targetK fs) := by
  simp only [buildModel, List.mem_append, List.mem_flatMap, List.mem_cons,
    List.not_mem_nil, or_false, List.mem_singleton] at hc
  rcases hc with (((⟨q, _, hmem⟩ | hc) | hc) | hc) | hc
  · exact Or.inl ⟨q.1, hmem⟩
  · exact Or.inr (Or.inl hc)
  · by_cases hb : isNitrogenConstraintNecessary targetN fs = true
    · simp [hb] at hc
      exact Or.inr (Or.inr (Or.inl ⟨hb, hc⟩))
    · rw [Bool.not_eq_true] at hb
      simp [hb] at hc
  · by_cases hb : isPhosphorusConstraintNecessary targetP fs = true
    · simp [hb] at hc
      exact Or.inr (Or.inr (Or.inr (Or.inl ⟨hb, hc⟩)))
    · rw [Bool.not_eq_true] at hb
      simp [hb] at hc
  · by_cases hb : isPotassiumConstraintNecessary targetK fs = true
    · simp [hb] at hc
      exact Or.inr (Or.inr (Or.inr (Or.inr ⟨hb, hc⟩)))
    · rw [Bool.not_eq_true] at hb
      simp [hb] at hc

/-- The N tolerance constraint is in the model whenever its gate is true. -/
theorem nTol_mem {targetN targetP targetK totalWeight tolerance increment : ℚ}
    {fs : List Fertilizer}
    (hb : isNitrogenConstraintNecessary targetN fs = true) :
    nToleranceConstraint totalWeight (tolerance / 100) targetN fs ∈
      (buildModel targetN targetP targetK totalWeight tolerance increment
        fs).subjectTo := by
  simp only [buildModel, List.mem_append]
  exact Or.inl (Or.inl (Or.inr (by simp [hb])))

/-- The P tolerance constraint is in the model whenever its gate is true. -/
theorem pTol_mem {targetN targetP targetK totalWeight tolerance increment : ℚ}
    {fs : List Fertilizer}
    (hb : isPhosphorusConstraintNecessary targetP fs = true) :
    pToleranceConstraint totalWeight (tolerance / 100) targetP fs ∈
      (buildModel targetN targetP targetK totalWeight tolerance increment
        fs).subjectTo := by
  simp only [buildModel, List.mem_append]
  exact Or.inl (Or.inr (by simp [hb]))

/-- The K tolerance constraint is in the model whenever its gate is true. -/
theorem kTol_mem {targetN targetP targetK totalWeight tolerance increment : ℚ}
    {fs : List Fertilizer}
    (hb : isPotassiumConstraintNecessary targetK fs = true) :
    kToleranceConstraint totalWeight (tolerance / 100) targetK fs ∈
      (buildModel targetN targetP targetK totalWeight tolerance increment
        fs).subjectTo := by
  simp only [buildModel, List.mem_append]
  exact Or.inr (by simp [hb])

/-- **C5 (confirmed)**: for each nutrient independently, the generated model
contains a constraint named after that nutrient's tolerance constraint if
and only if the target is nonzero or some surviving ingredient has a
nonzero percentage for it; and in that case the exact double-bounded
constraint with bounds target_amount × (1 ∓ tolerance/100) over the
coefficients pct/100 is present. When the gate fails, no constraint for
that nutrient is emitted. -/
theorem tolerance_constraint_iff
    (targetN targetP targetK totalWeight tolerance increment : ℚ)
    (fs : List Fertilizer) :
    (((∃ c ∈ (buildModel targetN targetP targetK totalWeight tolerance
          increment fs).subjectTo, c.name = "c_N_tolerance") ↔
        targetN ≠ 0 ∨ ∃ f ∈ fs, f.n ≠ 0) ∧
      ((targetN ≠ 0 ∨ ∃ f ∈ fs, f.n ≠ 0) →
        nToleranceConstraint totalWeight (tolerance / 100) targetN fs ∈
          (buildModel targetN targetP targetK totalWeight tolerance
            increment fs).subjectTo)) ∧
    (((∃ c ∈ (buildModel targetN targetP targetK totalWeight tolerance
          increment fs).subjectTo, c.name = "c_P_tolerance") ↔
        targetP ≠ 0 ∨ ∃ f ∈ fs, f.p ≠ 0) ∧
      ((targetP ≠ 0 ∨ ∃ f ∈ fs, f.p ≠ 0) →
        pToleranceConstraint totalWeight (tolerance / 100) targetP fs ∈
          (buildModel targetN targetP targetK totalWeight tolerance
            increment fs).subjectTo)) ∧
    (((∃ c ∈ (buildModel targetN targetP targetK totalWeight tolerance
          increment fs).subjectTo, c.name = "c_K_tolerance") ↔
        targetK ≠ 0 ∨ ∃ f ∈ fs, f.k ≠ 0) ∧
      ((targetK ≠ 0 ∨ ∃ f ∈ fs, f.k ≠ 0) →
        kToleranceConstraint totalWeight (tolerance / 100) targetK fs ∈
          (buildModel targetN targetP targetK totalWeight tolerance
            increment fs).subjectTo)) := by
  refine ⟨⟨⟨?_, ?_⟩, ?_⟩, ⟨⟨?_, ?_⟩, ?_⟩, ⟨⟨?_, ?_⟩, ?_⟩⟩
  · rintro ⟨c, hc, hname⟩
    rcases subjectTo_mem_cases hc with ⟨i, h | h | h⟩ | h | ⟨hb, _⟩ | ⟨_, h⟩ | ⟨_, h⟩
    · rw [h] at hname
      exact absurd hname ((increment_name_ne (toString i)).1)
    · rw [h] at hname
      exact absurd hname ((upper_name_ne (toString i)).1)
    · rw [h] at hname
      exact absurd hname ((lower_name_ne (toString i)).1)
    · rw [h] at hname
      have hne : ("c_total_weight" : String) ≠ "c_N_tolerance" := by decide
      exact absurd hname hne
    · exact (isNitrogen_necessary_iff targetN fs).mp hb
    · rw [h] at hname
      have hne : ("c_P_tolerance" : String) ≠ "c_N_tolerance" := by decide
      exact absurd hname hne
    · rw [h] at hname
      have hne : ("c_K_tolerance" : String) ≠ "c_N_tolerance" := by decide
      exact absurd hname hne
  · intro hcond
    exact ⟨nToleranceConstraint totalWeight (tolerance / 100) targetN fs,
      nTol_mem ((isNitrogen_necessary_iff targetN fs).mpr hcond), rfl⟩
  · intro hcond
    exact nTol_mem ((isNitrogen_necessary_iff targetN fs).mpr hcond)
  · rintro ⟨c, hc, hname⟩
    rcases subjectTo_mem_cases hc with ⟨i, h | h | h⟩ | h | ⟨_, h⟩ | ⟨hb, _⟩ | ⟨_, h⟩
    · rw [h] at hname
      exact absurd hname ((increment_name_ne (toString i)).2.1)
    · rw [h] at hname
      exact absurd hname ((upper_name_ne (toString i)).2.1)
    · rw [h] at hname
      exact absurd hname ((lower_name_ne (toString i)).2.1)
    · rw [h] at hname
      have hne : ("c_total_weight" : String) ≠ "c_P_tolerance" := by decide
      exact absurd hname hne
    · rw [h] at hname
      have hne : ("c_N_tolerance" : String) ≠ "c_P_tolerance" := by decide
      exact absurd hname hne
    · exact (isPhosphorus_necessary_iff targetP fs).mp hb
    · rw [h] at hname
      have hne : ("c_K_tolerance" : String) ≠ "c_P_tolerance" := by decide
      exact absurd hname hne
  · intro hcond
    exact ⟨pToleranceConstraint totalWeight (tolerance / 100) targetP fs,
      pTol_mem ((isPhosphorus_necessary_iff targetP fs).mpr hcond), rfl⟩
  · intro hcond
    exact pTol_mem ((isPhosphorus_necessary_iff targetP fs).mpr hcond)
  · rintro ⟨c, hc, hname⟩
    rcases subjectTo_mem_cases hc with ⟨i, h | h | h⟩ | h | ⟨_, h⟩ | ⟨_, h⟩ | ⟨hb, _⟩
    · rw [h] at hname
      exact absurd hname ((increment_name_ne (toString i)).2.2)
    · rw [h] at hname
      exact absurd hname ((upper_name_ne (toString i)).2.2)
    · rw [h] at hname
      exact absurd hname ((lower_name_ne (toString i)).2.2)
    · rw [h] at hname
      have hne : ("c_total_weight" : String) ≠ "c_K_tolerance" := by decide
      exact absurd hname hne
    · rw [h] at hname
      have hne : ("c_N_tolerance" : String) ≠ "c_K_tolerance" := by decide
      exact absurd hname hne
    · rw [h] at hname
      have hne : ("c_P_tolerance" : String) ≠ "c_K_tolerance" := by decide
      exact absurd hname hne
    · exact (isPotassium_necessary_iff targetK fs).mp hb
  · intro hcond
    exact ⟨kToleranceConstraint totalWeight (tolerance / 100) targetK fs,
      kTol_mem ((isPotassium_necessary_iff targetK fs).mpr hcond), rfl⟩
  · intro hcond
    exact kTol_mem ((isPotassium_necessary_iff targetK fs).mpr hcond)

/-- Witness for the C5 theorem: with a nonzero nitrogen target the N
tolerance constraint is present in a concrete model. -/
theorem tolerance_constraint_iff_witness :
    nToleranceConstraint 1000 (5 / 100) 10 [urea] ∈
      (buildModel 10 10 10 1000 5 10 [urea]).subjectTo :=
  (tolerance_constraint_iff 10 10 10 1000 5 10 [urea]).1.2
    (Or.inl (by decide))

/-- Every included entry has amount strictly above epsilon. -/
theorem includedEntries_amount {fs : List Fertilizer} {vars : String → Option ℚ}
    {e : RecipeIngredient} (he : e ∈ includedEntries fs vars) :
    epsilon < e.amount := by
  unfold includedEntries at he
  rw [List.mem_filterMap] at he
  obtain ⟨⟨i, f⟩, _, hgq⟩ := he
  replace hgq :
      (match vars (xName i) with
       | some v => if epsilon < v then some (⟨f, v⟩ : RecipeIngredient) else none
       | none => none) = some e := hgq
  cases hv : vars (xName i) with
  | none =>
    rw [hv] at hgq
    exact absurd hgq (by simp)
  | some v =>
    rw [hv] at hgq
    replace hgq :
        (if epsilon < v then some (⟨f, v⟩ : RecipeIngredient) else none) =
          some e := hgq
    split_ifs at hgq with hev
    injection hgq with hge
    rw [← hge]
    exact hev

/-- The re-filtering of the recipe at line 189 is the identity. -/
theorem includedEntries_filter_self (fs : List Fertilizer)
    (vars : String → Option ℚ) :
    ((includedEntries fs vars).filter fun item => decide (epsilon < item.amount)) =
      includedEntries fs vars := by
  apply List.filter_eq_self.mpr
  intro a ha
  exact decide_eq_true (includedEntries_amount ha)

/-- Membership in the included entries, characterized by index and value. -/
theorem mem_includedEntries {fs : List Fertilizer} {vars : String → Option ℚ}
    {e : RecipeIngredient} :
    e ∈ includedEntries fs vars ↔
      ∃ i, ∃ hi : i < fs.length, ∃ v, vars (xName i) = some v ∧ epsilon < v ∧
        e = ⟨fs[i], v⟩ := by
  unfold includedEntries
  rw [List.mem_filterMap]
  constructor
  · rintro ⟨⟨i, f⟩, hq, hgq⟩
    obtain ⟨hi, hf⟩ := List.mem_enum hq
    replace hgq :
        (match vars (xName i) with
         | some v => if epsilon < v then some (⟨f, v⟩ : RecipeIngredient) else none
         | none => none) = some e := hgq
    cases hv : vars (xName i) with
    | none =>
      rw [hv] at hgq
      exact absurd hgq (by simp)
    | some v =>
      rw [hv] at hgq
      replace hgq :
          (if epsilon < v then some (⟨f, v⟩ : RecipeIngredient) else none) =
            some e := hgq
      split_ifs at hgq with hev
      injection hgq with hge
      exact ⟨i, hi, v, hv, hev, by rw [← hge, hf]⟩
  · rintro ⟨i, hi, v, hv, hev, rfl⟩
    refine ⟨(i, fs[i]), ?_, ?_⟩
    · rw [List.mk_mem_enum_iff_getElem?]
      exact List.getElem?_eq_getElem hi
    · show (match vars (xName i) with
         | some v => if epsilon < v then some (⟨fs[i], v⟩ : RecipeIngredient) else none
         | none => none) = some ⟨fs[i], v⟩
      simp [hv, hev]

/-- Any successful calculateMix run with a recipe comes from an
optimal/feasible solver answer interpreted by successResult. -/
theorem calculateMix_success_shape {params : CalculateMixParams}
    {glpkLoad : Except String Unit} {solve : LPModel → Except String SolveResult}
    {res : CalculationResult} {rec : List RecipeIngredient}
    (h : calculateMix params glpkLoad solve = Except.ok res)
    (hrec : res.recipe = some rec) :
    ∃ sr, solve (builtModel params) = Except.ok sr ∧
      (sr.status = GLP_OPT ∨ sr.status = GLP_FEAS) ∧
      res = successResult (filteredCandidates params) sr.vars ∧
      rec = includedEntries (filteredCandidates params) sr.vars := by
  unfold calculateMix at h
  split_ifs at h with h1 h2
  · injection h with h3
    rw [← h3] at hrec
    exact absurd hrec (by simp)
  · injection h with h3
    rw [← h3] at hrec
    exact absurd hrec (by simp)
  · cases hload : glpkLoad with
    | error m =>
      rw [hload] at h
      exact absurd h (by simp)
    | ok u =>
      rw [hload] at h
      cases hs : solve (builtModel params) with
      | error m =>
        rw [hs] at h
        injection h with h3
        rw [← h3] at hrec
        exact absurd hrec (by simp)
      | ok sr =>
        rw [hs] at h
        injection h with h3
        by_cases hst : sr.status = GLP_OPT ∨ sr.status = GLP_FEAS
        · refine ⟨sr, rfl, hst, ?_, ?_⟩
          · rw [← h3]
            unfold interpretSolution
            rw [if_pos hst]
          · have h4 : res.recipe = some
                ((includedEntries (filteredCandidates params) sr.vars).filter
                  fun item => decide (epsilon < item.amount)) := by
              rw [← h3]
              unfold interpretSolution
              rw [if_pos hst]
              rfl
            rw [hrec] at h4
            injection h4 with h5
            rw [h5, includedEntries_filter_self]
        · exfalso
          rw [← h3] at hrec
          unfold interpretSolution at hrec
          rw [if_neg hst] at hrec
          exact absurd hrec (by simp)

/-- **C6 (confirmed)**: an optimal/feasible solver outcome in which every
amount value is at most epsilon yields a success result with an empty
recipe, zero actual percentages, zero actual weight and no error. -/
theorem trivial_solution_success {params : CalculateMixParams} {sr : SolveResult}
    {solve : LPModel → Except String SolveResult}
    (hne : (filteredCandidates params).length ≠ 0)
    (hval : ¬(params.totalWeight ≤ 0 ∨ params.increment ≤ 0))
    (hsolve : solve (builtModel params) = Except.ok sr)
    (hstatus : sr.status = GLP_OPT ∨ sr.status = GLP_FEAS)
    (hsmall : ∀ i v, sr.vars (xName i) = some v → v ≤ epsilon) :
    calculateMix params (Except.ok ()) solve =
      Except.ok ⟨some [], none, some ⟨0, 0, 0⟩, some 0⟩ := by
  have hnil : includedEntries (filteredCandidates params) sr.vars = [] := by
    apply List.filterMap_eq_nil_iff.mpr
    intro q _
    cases hv : sr.vars (xName q.1) with
    | none => simp [hv]
    | some v =>
      have hle := hsmall q.1 v hv
      simp [hv, not_lt.mpr hle]
  unfold calculateMix
  rw [if_neg hne, if_neg hval]
  simp only [hsolve]
  unfold interpretSolution
  rw [if_pos hstatus]
  unfold successResult
  rw [hnil]
  simp [recipeWeight, recipeTotalN, recipeTotalP, recipeTotalK, finalPct]

/-- Witness for the C6 theorem at a concrete feasible all-zero outcome. -/
theorem trivial_solution_success_witness :
    calculateMix demoParams (Except.ok ()) demoZeroSolve =
      Except.ok ⟨some [], none, some ⟨0, 0, 0⟩, some 0⟩ :=
  trivial_solution_success (by decide) (by decide) rfl (Or.inr rfl)
    (fun i v h => by
      injection h with h2
      rw [← h2, epsilon_val]
      norm_num)

/-- A concrete successful run: one candidate, amount 50, so the nitrogen
percentage is 50 × 12 / 100 / 50 × 100 = 12. -/
theorem demo_run :
    calculateMix demoParams (Except.ok ()) demoSolve =
      Except.ok ⟨some [⟨bloodMeal, 50⟩], none, some ⟨12, 0, 0⟩, some 50⟩ := by
  have h50 : epsilon < (50 : ℚ) := by
    rw [epsilon_val]
    norm_num
  have hfilter : filteredCandidates demoParams = [bloodMeal] := rfl
  have hinc : includedEntries [bloodMeal] (fun _ => some (50 : ℚ)) =
      [⟨bloodMeal, 50⟩] := by
    unfold includedEntries
    simp [List.enum, h50]
  unfold calculateMix
  rw [if_neg (by decide), if_neg (by decide)]
  show Except.ok (interpretSolution (filteredCandidates demoParams)
    ⟨GLP_OPT, fun _ => some 50⟩) = _
  unfold interpretSolution
  rw [if_pos (Or.inl rfl)]
  unfold successResult
  rw [hfilter, hinc]
  simp [recipeTotalN, recipeTotalP, recipeTotalK, recipeWeight, finalPct,
    bloodMeal, h50]
  norm_num

/-- **C7 (confirmed)**: in every success result, each reported actual
nutrient percentage equals the accumulated nutrient total of the returned
recipe divided by the actual total weight, times 100, and equals 0 when
the actual total weight is 0. -/
theorem actual_npk_formula {params : CalculateMixParams}
    {glpkLoad : Except String Unit} {solve : LPModel → Except String SolveResult}
    {res : CalculationResult} {rec : List RecipeIngredient} {npk : NPK} {w : ℚ}
    (h : calculateMix params glpkLoad solve = Except.ok res)
    (hrec : res.recipe = some rec)
    (hnpk : res.actualNPK = some npk)
    (hw : res.actualWeight = some w) :
    ((w = 0 → npk.n = 0) ∧ (w ≠ 0 → npk.n = recipeTotalN rec / w * 100)) ∧
    ((w = 0 → npk.p = 0) ∧ (w ≠ 0 → npk.p = recipeTotalP rec / w * 100)) ∧
    ((w = 0 → npk.k = 0) ∧ (w ≠ 0 → npk.k = recipeTotalK rec / w * 100)) := by
  obtain ⟨sr, _, _, hres, hrec2⟩ := calculateMix_success_shape h hrec
  have hnpkE : some (⟨finalPct (recipeTotalN (includedEntries
        (filteredCandidates params) sr.vars))
        (recipeWeight (includedEntries (filteredCandidates params) sr.vars)),
      finalPct (recipeTotalP (includedEntries (filteredCandidates params) sr.vars))
        (recipeWeight (includedEntries (filteredCandidates params) sr.vars)),
      finalPct (recipeTotalK (includedEntries (filteredCandidates params) sr.vars))
        (recipeWeight (includedEntries (filteredCandidates params) sr.vars))⟩ :
      NPK) = some npk := by
    rw [hres] at hnpk
    exact hnpk
  have hwE : some (recipeWeight (includedEntries (filteredCandidates params)
      sr.vars)) = some w := by
    rw [hres] at hw
    exact hw
  injection hnpkE with hnpkF
  injection hwE with hwF
  subst hrec2
  subst hnpkF
  subst hwF
  refine ⟨⟨?_, ?_⟩, ⟨?_, ?_⟩, ⟨?_, ?_⟩⟩
  all_goals intro h0
  all_goals simp [finalPct, h0]

/-- Witness for the C7 theorem on the concrete demo run. -/
theorem actual_npk_formula_witness :
    (((50 : ℚ) = 0 → (12 : ℚ) = 0) ∧
      ((50 : ℚ) ≠ 0 → (12 : ℚ) = recipeTotalN [⟨bloodMeal, 50⟩] / 50 * 100)) ∧
    (((50 : ℚ) = 0 → (0 : ℚ) = 0) ∧
      ((50 : ℚ) ≠ 0 → (0 : ℚ) = recipeTotalP [⟨bloodMeal, 50⟩] / 50 * 100)) ∧
    (((50 : ℚ) = 0 → (0 : ℚ) = 0) ∧
      ((50 : ℚ) ≠ 0 → (0 : ℚ) = recipeTotalK [⟨bloodMeal, 50⟩] / 50 * 100)) :=
  actual_npk_formula demo_run rfl rfl rfl

/-- **C8 (confirmed)**: in every success result over a duplicate-free
surviving list, a surviving ingredient appears in the returned recipe
exactly when its amount variable holds a value exceeding epsilon, and no
recipe entry has amount at or below epsilon. -/
theorem recipe_membership_iff {params : CalculateMixParams}
    {glpkLoad : Except String Unit} {solve : LPModel → Except String SolveResult}
    {res : CalculationResult} {rec : List RecipeIngredient}
    (hnd : (filteredCandidates params).Nodup)
    (h : calculateMix params glpkLoad solve = Except.ok res)
    (hrec : res.recipe = some rec) :
    (∀ e ∈ rec, epsilon < e.amount) ∧
    ∀ sr, solve (builtModel params) = Except.ok sr →
      ∀ (i : Nat) (hi : i < (filteredCandidates params).length),
        ((∃ e ∈ rec, e.fertilizer = (filteredCandidates params)[i]) ↔
          ∃ v, sr.vars (xName i) = some v ∧ epsilon < v) := by
  obtain ⟨sr0, hs0, _, _, hrec2⟩ := calculateMix_success_shape h hrec
  subst hrec2
  constructor
  · intro e he
    exact includedEntries_amount he
  · intro sr hs i hi
    have hsr : sr = sr0 := by
      rw [hs0] at hs
      injection hs with h4
      exact h4.symm
    subst hsr
    constructor
    · rintro ⟨e, he, hef⟩
      rw [mem_includedEntries] at he
      obtain ⟨j, hj, v, hv, hev, rfl⟩ := he
      have hji : j = i := (List.Nodup.getElem_inj_iff hnd).mp hef
      subst hji
      exact ⟨v, hv, hev⟩
    · rintro ⟨v, hv, hev⟩
      refine ⟨⟨(filteredCandidates params)[i], v⟩, ?_, rfl⟩
      rw [mem_includedEntries]
      exact ⟨i, hi, v, hv, hev, rfl⟩

/-- Witness for the C8 theorem on the concrete demo run. -/
theorem recipe_membership_iff_witness :
    (∃ e ∈ [(⟨bloodMeal, 50⟩ : RecipeIngredient)], e.fertilizer = bloodMeal) ↔
      ∃ v, some (50 : ℚ) = some v ∧ epsilon < v :=
  (recipe_membership_iff (by decide) demo_run rfl).2
    ⟨GLP_OPT, fun _ => some 50⟩ rfl 0 (by decide)

/-- **C9 (confirmed)**: every recipe entry of any returned recipe refers to
a fertilizer from the filtered candidate list; an ingredient removed by
the zero-target pre-filter never appears. -/
theorem recipe_subset_filtered {params : CalculateMixParams}
    {glpkLoad : Except String Unit} {solve : LPModel → Except String SolveResult}
    {res : CalculationResult} {rec : List RecipeIngredient}
    (h : calculateMix params glpkLoad solve = Except.ok res)
    (hrec : res.recipe = some rec) :
    ∀ e ∈ rec, e.fertilizer ∈ filteredCandidates params := by
  obtain ⟨sr, _, _, _, hrec2⟩ := calculateMix_success_shape h hrec
  subst hrec2
  intro e he
  rw [mem_includedEntries] at he
  obtain ⟨i, hi, v, _, _, rfl⟩ := he
  exact List.getElem_mem hi

/-- Witness for the C9 theorem on the concrete demo run. -/
theorem recipe_subset_filtered_witness :
    (⟨bloodMeal, 50⟩ : RecipeIngredient).fertilizer ∈
      filteredCandidates demoParams :=
  recipe_subset_filtered demo_run rfl ⟨bloodMeal, 50⟩ (by decide)

end NpkSolver
